import Mathlib

/-!
Verification development for the reflect-todo-app repository.

The definitions below are shallow embeddings of the TypeScript source:
  * `src/src/utils/validation.ts`  — text validation (zod pipeline, sentence counting)
  * `src/src/utils/index.ts`       — display-score transform, text similarity
  * `src/src/hooks/useTodos.ts`    — `useAppContext` (context switching) and
                                     `useReflections` (reflection store)
  * `src/src/hooks/useChat.ts`     — chat store and `sendMessage`
  * `src/src/components/ContextTabs.tsx` — tab-level availability guard
  * `src/netlify/functions/evaluate-reflection.ts` — evaluation handler

JavaScript strings are modelled as Lean `String`s (`String.length` matching
JS `.length` on the ASCII/BMP texts involved); `Date.now()` timestamps are
`Nat` parameters; generated random ids are `String` parameters; remote-call
outcomes are explicit oracle arguments.
-/

namespace ReflectApp

/-! ### JS string primitives -/

/-- JS whitespace characters relevant here (space, tab, LF, CR, VT, FF),
the character class trimmed by `String.prototype.trim` on the ASCII range. -/
def isJsSpace (c : Char) : Bool :=
  c = ' ' || c = '\t' || c = '\n' || c = '\r' || c.toNat = 11 || c.toNat = 12

/-- Trim on a character list: drop JS whitespace from both ends. -/
def trimChars (l : List Char) : List Char :=
  ((l.dropWhile isJsSpace).reverse.dropWhile isJsSpace).reverse

/-- `String.prototype.trim`. -/
def jsTrim (s : String) : String :=
  ⟨trimChars s.data⟩

/-! ### Zod string schema pipeline (`validation.ts`)

`ReflectionTextSchema = z.string().min(10).max(1000).trim()`: zod processes
the chained checks in order, so the `min`/`max` length checks run on the raw
input string and the `trim` transform is applied only afterwards. -/

/-- One chained step of a zod string schema. -/
inductive ZodStep
  | minLen (n : Nat) (msg : String)
  | maxLen (n : Nat) (msg : String)
  | trimStep
deriving DecidableEq

/-- Run a zod string schema: checks and transforms applied in chained order;
`none` models a thrown `ZodError`. -/
def runZodString : List ZodStep → String → Option String
  | [], s => some s
  | ZodStep.minLen n _ :: rest, s =>
      if s.length < n then none else runZodString rest s
  | ZodStep.maxLen n _ :: rest, s =>
      if n < s.length then none else runZodString rest s
  | ZodStep.trimStep :: rest, s => runZodString rest (jsTrim s)

/-- `ReflectionTextSchema`: min 10, max 1000, then trim. -/
def ReflectionTextSchema : List ZodStep :=
  [ZodStep.minLen 10 "Reflection must be at least 10 characters long",
   ZodStep.maxLen 1000 "Reflection cannot exceed 1000 characters",
   ZodStep.trimStep]

/-- `ChatMessageSchema`: min 1, max 2000, then trim. -/
def ChatMessageSchema : List ZodStep :=
  [ZodStep.minLen 1 "Message cannot be empty",
   ZodStep.maxLen 2000 "Message cannot exceed 2000 characters",
   ZodStep.trimStep]

/-- `isValidReflectionText`: parse against `ReflectionTextSchema`,
true on success. -/
def isValidReflectionText (text : String) : Bool :=
  (runZodString ReflectionTextSchema text).isSome

/-- `isValidChatMessage`: parse against `ChatMessageSchema`, true on success. -/
def isValidChatMessage (text : String) : Bool :=
  (runZodString ChatMessageSchema text).isSome

/-- `sanitizeReflectionText`: trims whitespace. -/
def sanitizeReflectionText (text : String) : String := jsTrim text

/-- `sanitizeChatMessage`: trims whitespace. -/
def sanitizeChatMessage (text : String) : String := jsTrim text

/-! ### Sentence counting -/

/-- Sentence-boundary characters of the split regex `/[.!?]+/`. -/
def isSentenceBoundary (c : Char) : Bool :=
  c = '.' || c = '!' || c = '?'

/-- Split a character list at every character satisfying `p`.  The JS
`split(/[.!?]+/)` splits on maximal runs; splitting at single characters
differs from it only by extra empty segments, which the subsequent
non-empty-after-trim filter discards. -/
def splitChars (p : Char → Bool) : List Char → List (List Char)
  | [] => [[]]
  | c :: cs =>
      if p c then [] :: splitChars p cs
      else
        match splitChars p cs with
        | [] => [[c]]
        | s :: ss => (c :: s) :: ss

/-- `countSentences`: split on `.`/`!`/`?`, keep segments whose trimmed
length is positive, count. -/
def countSentences (text : String) : Nat :=
  ((splitChars isSentenceBoundary text.data).filter
    (fun s => (trimChars s).length > 0)).length

/-- `isValidSentenceCount`: 3–4 sentences. -/
def isValidSentenceCount (text : String) : Bool :=
  let sentenceCount := countSentences text
  3 ≤ sentenceCount && sentenceCount ≤ 4

/-- `getReflectionValidationError`: first violated rule's message, checking
the length schema before the sentence count; `none` when valid. -/
def getReflectionValidationError (text : String) : Option String :=
  if ¬ isValidReflectionText text then
    if text.length < 10 then
      some "Reflection must be at least 10 characters long"
    else if text.length > 1000 then
      some "Reflection cannot exceed 1000 characters"
    else
      some "Invalid reflection text"
  else if ¬ isValidSentenceCount text then
    some ("Reflection should be 3-4 sentences (currently " ++
      toString (countSentences text) ++ ")")
  else
    none

/-! ### Data model (`src/src/types/reflection.ts`) -/

/-- `ReflectionStatus` constants. -/
inductive ReflectionStatus
  | pending
  | inProgress
  | passed
deriving DecidableEq

/-- `AppContext` constants for the tabbed interface. -/
inductive AppContext
  | chat
  | feedback
  | writeEdit
deriving DecidableEq

/-- The `Object.values(AppContext)` array. -/
def appContextValues : List AppContext :=
  [AppContext.chat, AppContext.feedback, AppContext.writeEdit]

/-- `MessageRole` constants. -/
inductive MessageRole
  | user
  | assistant
  | system
deriving DecidableEq

/-- Chat-message context tags. -/
inductive MessageContext
  | general
  | reflectionHelp
  | feedbackDiscussion
deriving DecidableEq

/-- A reflection record; dates are `Date.now()`-style timestamps. -/
structure Reflection where
  id : String
  text : String
  status : ReflectionStatus
  createdAt : Nat
  updatedAt : Nat
  chatSessionId : String
  currentVersion : Nat
deriving DecidableEq

/-- A chat message. -/
structure ChatMessage where
  id : String
  role : MessageRole
  content : String
  timestamp : Nat
  context : MessageContext
  reflectionId : String
deriving DecidableEq

/-- A chat session linking a reflection to its messages. -/
structure ChatSession where
  id : String
  reflectionId : String
  messages : List ChatMessage
  isActive : Bool
  createdAt : Nat
deriving DecidableEq

/-! ### Context navigator (`useAppContext` in `useTodos.ts`) -/

/-- `isValidContextSwitch` (`validation.ts`): accepts any switch whose
target is a member of `Object.values(AppContext)`. -/
def isValidContextSwitch (_currentContext newContext : AppContext) : Bool :=
  appContextValues.contains newContext

/-- `switchContext` as a state step on the active context: validate, no-op
success when already in the target, otherwise commit the target (the
transient 150 ms `isTransitioning` animation flag begins and ends false and
is dropped).  Returns the promised boolean and the resulting context. -/
def switchContext (activeContext newContext : AppContext) :
    Bool × AppContext :=
  if ¬ isValidContextSwitch activeContext newContext then
    (false, activeContext)
  else if activeContext = newContext then
    (true, activeContext)
  else
    (true, newContext)

/-- `isContextAvailable` (`useAppContext`): chat and feedback require a
reflection; write/edit is always available. -/
def isContextAvailable (context : AppContext) (hasReflection : Bool) : Bool :=
  match context with
  | AppContext.chat => hasReflection
  | AppContext.feedback => hasReflection
  | AppContext.writeEdit => true

/-- The `available` field of `getContextInfo` in `ContextTabs.tsx`. -/
def contextTabAvailable (context : AppContext) (hasReflection : Bool) : Bool :=
  match context with
  | AppContext.chat => hasReflection
  | AppContext.feedback => hasReflection
  | AppContext.writeEdit => true

/-- `handleTabClick` in `ContextTabs.tsx`: invokes the `onContextChange`
callback (wired to `switchContext` in `App.tsx`) only when the clicked tab
is available; returns the resulting active context. -/
def handleTabClick (hasReflection : Bool) (activeContext target : AppContext) :
    AppContext :=
  if contextTabAvailable target hasReflection then
    (switchContext activeContext target).2
  else
    activeContext

/-! ### Reflection store (`useReflections` in `useTodos.ts`) -/

/-- State owned by `useReflections`: the reflection list (newest first) and
the selected-id pointer. -/
structure ReflectionsState where
  reflections : List Reflection
  selectedReflectionId : Option String
deriving DecidableEq

/-- `addReflection`: sanitize, validate (null and no mutation on failure),
otherwise prepend a fresh reflection and select it.  `newId`, `genChatId`
and `now` stand for `generateReflectionId()`, the generated chat-session id
and `Date.now()`; `providedChatId` is the optional `chatSessionId` argument,
with JS `||` falling back to the generated id on `undefined` or `""`. -/
def addReflection (newId genChatId : String) (now : Nat)
    (text : String) (providedChatId : Option String)
    (st : ReflectionsState) : Option Reflection × ReflectionsState :=
  let sanitizedText := sanitizeReflectionText text
  if ¬ isValidReflectionText sanitizedText then
    (none, st)
  else
    let newReflection : Reflection :=
      { id := newId
        text := sanitizedText
        status := ReflectionStatus.pending
        createdAt := now
        updatedAt := now
        chatSessionId :=
          match providedChatId with
          | some s => if s = "" then genChatId else s
          | none => genChatId
        currentVersion := 1 }
    (some newReflection,
      { reflections := newReflection :: st.reflections
        selectedReflectionId := some newReflection.id })

/-- `updateReflection`: sanitize, validate (false and no mutation on
failure), otherwise map over the list replacing text, `updatedAt` and
bumping `currentVersion` for the matching id only. -/
def updateReflection (now : Nat) (id newText : String)
    (st : ReflectionsState) : Bool × ReflectionsState :=
  let sanitizedText := sanitizeReflectionText newText
  if ¬ isValidReflectionText sanitizedText then
    (false, st)
  else
    (true,
      { st with
        reflections := st.reflections.map (fun reflection =>
          if reflection.id = id then
            { reflection with
              text := sanitizedText
              updatedAt := now
              currentVersion := reflection.currentVersion + 1 }
          else reflection) })

/-- `updateReflectionStatus`: map over the list setting status and
`updatedAt` for the matching id; returns true unconditionally. -/
def updateReflectionStatus (now : Nat) (id : String)
    (newStatus : ReflectionStatus) (st : ReflectionsState) :
    Bool × ReflectionsState :=
  (true,
    { st with
      reflections := st.reflections.map (fun reflection =>
        if reflection.id = id then
          { reflection with status := newStatus, updatedAt := now }
        else reflection) })

/-! ### Display-score transform (`src/src/utils/index.ts`) -/

/-- `getDisplayScore`: scores ≥ 75 are boosted by 15 and capped at 100. -/
def getDisplayScore (actualScore : ℚ) : ℚ :=
  if 75 ≤ actualScore then min 100 (actualScore + 15)
  else actualScore

/-! ### Text similarity (`src/src/utils/index.ts`)

JS numbers are modelled as exact rationals. -/

/-- The character class `\w` of the replace regex `/[^\w\s]/g`. -/
def isWordChar (c : Char) : Bool :=
  c.isAlphanum || c = '_'

/-- The `normalize` helper of `calculateTextSimilarity`: lowercase, replace
every non-word non-space character by a space, split on whitespace, keep
words longer than 2 characters.  Splitting at single whitespace characters
differs from the `/\s+/` split only by empty segments, which the length
filter discards. -/
def normalizeWords (text : String) : List (List Char) :=
  ((splitChars isJsSpace
      ((text.data.map Char.toLower).map
        (fun c => if isWordChar c || isJsSpace c then c else ' '))).filter
    (fun word => word.length > 2))

/-- `calculateTextSimilarity`: Jaccard similarity (intersection over union)
of the two normalized word sets; 0 for empty/falsy inputs or empty word
lists. -/
def calculateTextSimilarity (text1 text2 : String) : ℚ :=
  if text1 = "" || text2 = "" then 0
  else
    let words1 := normalizeWords text1
    let words2 := normalizeWords text2
    if words1.length = 0 || words2.length = 0 then 0
    else
      let set1 := words1.dedup
      let set2 := words2.dedup
      let intersection := set1.filter (fun word => decide (word ∈ set2))
      let union := (set1 ++ set2).dedup
      (intersection.length : ℚ) / (union.length : ℚ)

/-- An element of the `pastPassingReflections` argument. -/
structure PastReflection where
  text : String
  createdAt : String
deriving DecidableEq

/-- The non-null result of `checkReflectionSimilarity`. -/
structure SimilarityMatch where
  similarReflection : String
  similarity : ℤ
  date : String
deriving DecidableEq

/-- `SIMILARITY_THRESHOLD = 0.6`. -/
def SIMILARITY_THRESHOLD : ℚ := 6 / 10

/-- `Math.round` on a non-negative rational. -/
def jsRound (x : ℚ) : ℤ :=
  ⌊x + 1 / 2⌋

/-- `checkReflectionSimilarity`: scan past passing reflections in order and
return the first whose similarity reaches the threshold, with the similarity
as a rounded integer percentage; `none` if every one is below. -/
def checkReflectionSimilarity (currentText : String) :
    List PastReflection → Option SimilarityMatch
  | [] => none
  | pastReflection :: rest =>
      let similarity := calculateTextSimilarity currentText pastReflection.text
      if SIMILARITY_THRESHOLD ≤ similarity then
        some
          { similarReflection := pastReflection.text
            similarity := jsRound (similarity * 100)
            date := pastReflection.createdAt }
      else
        checkReflectionSimilarity currentText rest

/-! ### Chat store (`useChat.ts` with helpers from `storage.ts`) -/

/-- State owned by `useChat`: the session list and the single-flight flag. -/
structure ChatState where
  chatSessions : List ChatSession
  isSending : Bool
deriving DecidableEq

/-- `getChatSessionForReflection` (`storage.ts`): first session with the
given reflection id, if any. -/
def getChatSessionForReflection (sessions : List ChatSession)
    (reflectionId : String) : Option ChatSession :=
  sessions.find? (fun session => session.reflectionId = reflectionId)

/-- `createChatSession` (`storage.ts`); the generated session id and
`Date.now()` are parameters. -/
def createChatSession (sessionId : String) (now : Nat)
    (reflectionId : String) : ChatSession :=
  { id := sessionId
    reflectionId := reflectionId
    messages := []
    isActive := true
    createdAt := now }

/-- `addMessageToChatSession` (`storage.ts`): append the message. -/
def addMessageToChatSession (session : ChatSession)
    (message : ChatMessage) : ChatSession :=
  { session with messages := session.messages ++ [message] }

/-- `updateChatSession` (`storage.ts`): replace the session with the same
id. -/
def updateChatSession (sessions : List ChatSession)
    (updatedSession : ChatSession) : List ChatSession :=
  sessions.map (fun session =>
    if session.id = updatedSession.id then updatedSession else session)

/-- `addMessage` (`useChat.ts`): sanitize and validate the content (false
and no mutation on failure), build the message, fetch or create the session,
append, and update or extend the session array.  `msgId`/`sessionId` stand
for the generated ids and `now` for the timestamp. -/
def addMessage (msgId sessionId : String) (now : Nat)
    (reflectionId content : String) (role : MessageRole)
    (context : MessageContext) (sessions : List ChatSession) :
    Bool × List ChatSession :=
  let sanitizedContent := sanitizeChatMessage content
  if ¬ isValidChatMessage sanitizedContent then
    (false, sessions)
  else
    let message : ChatMessage :=
      { id := msgId
        role := role
        content := sanitizedContent
        timestamp := now
        context := context
        reflectionId := reflectionId }
    let session :=
      match getChatSessionForReflection sessions reflectionId with
      | some s => s
      | none => createChatSession sessionId now reflectionId
    let updatedSession := addMessageToChatSession session message
    if (sessions.find? (fun s => s.id = updatedSession.id)).isSome then
      (true, updateChatSession sessions updatedSession)
    else
      (true, sessions ++ [updatedSession])

/-- The fields of the chat API's `data.data` that `sendMessage` uses. -/
structure ChatApiData where
  response : String
  context : MessageContext
deriving DecidableEq

/-- Outcome of the `fetch('/api/chat')` round trip, as an oracle:
HTTP-ok with a parsed `{success, data}` body, an HTTP error status, or a
thrown network error. -/
inductive FetchOutcome
  | ok (success : Bool) (data : Option ChatApiData)
  | httpError
  | networkError
deriving DecidableEq

/-- Generated ids and timestamp consumed by one `sendMessage` run (one
message id and one fallback session id per potential `addMessage` call). -/
structure ChatEnv where
  userMsgId : String
  userSessionId : String
  asstMsgId : String
  asstSessionId : String
  now : Nat
deriving DecidableEq

/-- `sendMessage` (`useChat.ts`) as a state step.  The in-flight guard
returns false immediately when `isSending` is set.  Otherwise: append the
user message (abort on validation failure); consult the fetch oracle; on a
successful `{success: true, data}` body append the assistant reply, on any
error append the fixed fallback assistant message; `isSending` is reset on
every path (the `finally`).  The reflection text, feedback and bounded chat
history only shape the request, which the oracle absorbs. -/
def sendMessage (env : ChatEnv) (fetchResult : FetchOutcome)
    (reflectionId message : String) (_currentReflection : Option Reflection)
    (st : ChatState) : Bool × ChatState :=
  if st.isSending then
    (false, st)
  else
    let (userMessageAdded, sessions1) :=
      addMessage env.userMsgId env.userSessionId env.now reflectionId message
        MessageRole.user MessageContext.general st.chatSessions
    if ¬ userMessageAdded then
      (false, { chatSessions := sessions1, isSending := false })
    else
      match fetchResult with
      | FetchOutcome.ok true (some data) =>
          let (_, sessions2) :=
            addMessage env.asstMsgId env.asstSessionId env.now reflectionId
              data.response MessageRole.assistant data.context sessions1
          (true, { chatSessions := sessions2, isSending := false })
      | FetchOutcome.ok true none =>
          let (_, sessions2) :=
            addMessage env.asstMsgId env.asstSessionId env.now reflectionId
              "Sorry, I had trouble responding. Please try again."
              MessageRole.assistant MessageContext.general sessions1
          (false, { chatSessions := sessions2, isSending := false })
      | FetchOutcome.ok false _ =>
          let (_, sessions2) :=
            addMessage env.asstMsgId env.asstSessionId env.now reflectionId
              "Sorry, I had trouble responding. Please try again."
              MessageRole.assistant MessageContext.general sessions1
          (false, { chatSessions := sessions2, isSending := false })
      | FetchOutcome.httpError =>
          let (_, sessions2) :=
            addMessage env.asstMsgId env.asstSessionId env.now reflectionId
              "Sorry, I had trouble responding. Please try again."
              MessageRole.assistant MessageContext.general sessions1
          (false, { chatSessions := sessions2, isSending := false })
      | FetchOutcome.networkError =>
          let (_, sessions2) :=
            addMessage env.asstMsgId env.asstSessionId env.now reflectionId
              "Sorry, I had trouble responding. Please try again."
              MessageRole.assistant MessageContext.general sessions1
          (false, { chatSessions := sessions2, isSending := false })

/-! ### Evaluation handler (`netlify/functions/evaluate-reflection.ts`) -/

/-- One rubric dimension of the structured feedback. -/
structure FeedbackItem where
  pass : Bool
  remarks : String
  suggestions : Option (List String)
deriving DecidableEq

/-- The coarse status tier of an evaluation. -/
inductive EvalStatus
  | needsWork
  | good
  | excellent
deriving DecidableEq

/-- A schema-validated `StructuredResponse` evaluation payload. -/
structure StructuredResponse where
  happened : FeedbackItem
  feeling : FeedbackItem
  next : FeedbackItem
  suggestions : List String
  overallScore : ℚ
  status : EvalStatus
deriving DecidableEq

/-- Result of the `openai.moderations.create` pre-check. -/
structure ModerationResult where
  flagged : Bool
deriving DecidableEq

/-- Outcome of the scoring round trip (`openai.responses.create` plus JSON
parse plus schema validation): a validated structured response, or any of
the throwing failures (no content, parse error, schema violation). -/
inductive ScoringOutcome
  | ok (resp : StructuredResponse)
  | failed
deriving DecidableEq

/-- The response fields of the handler that the spec talks about; `none`
models an absent JSON field. -/
structure EvalHttpResponse where
  status : Nat
  success : Option Bool
  flagged : Option Bool
  data : Option StructuredResponse
  error : Option String
deriving DecidableEq

/-- The evaluation handler as a function of its request and its two remote
oracles; the second component records whether the scoring call was issued.
`body = none` models a throwing `request.json()`; `body = some none` a
missing or non-string `reflectionText` field.  Error strings are the
source's literals where fixed and representative placeholders where the
source interpolates a thrown error. -/
def evaluateReflectionHandler (method : String) (apiKeyConfigured : Bool)
    (body : Option (Option String)) (moderation : ModerationResult)
    (scoring : ScoringOutcome) : EvalHttpResponse × Bool :=
  if method = "OPTIONS" then
    ({ status := 200, success := none, flagged := none,
       data := none, error := none }, false)
  else if method ≠ "POST" then
    ({ status := 405, success := none, flagged := none,
       data := none, error := some "Method not allowed" }, false)
  else if ¬ apiKeyConfigured then
    ({ status := 500, success := none, flagged := none,
       data := none, error := some "OpenAI API key not configured" }, false)
  else
    match body with
    | none =>
        ({ status := 500, success := some false, flagged := none,
           data := none, error := some "request body parse error" }, false)
    | some reflectionText =>
        match reflectionText with
        | none =>
            ({ status := 400, success := none, flagged := none,
               data := none, error := some "Invalid request" }, false)
        | some text =>
            if text = "" then
              ({ status := 400, success := none, flagged := none,
                 data := none, error := some "Invalid request" }, false)
            else if moderation.flagged then
              ({ status := 200, success := some false, flagged := some true,
                 data := none,
                 error := some "Content flagged for review" }, false)
            else
              match scoring with
              | ScoringOutcome.ok resp =>
                  ({ status := 200, success := some true, flagged := none,
                     data := some resp, error := none }, true)
              | ScoringOutcome.failed =>
                  ({ status := 500, success := some false, flagged := none,
                     data := none, error := some "evaluation error" }, true)

/-! ### Substring helper (for "the message mentions the count") -/

/-- Whether `needle` occurs as a contiguous substring of the character
list. -/
def containsChars (needle : List Char) : List Char → Bool
  | [] => needle.isEmpty
  | c :: cs => needle.isPrefixOf (c :: cs) || containsChars needle cs

/-- A message mentions a number when the number's decimal representation
occurs in it. -/
def mentionsNat (msg : String) (n : Nat) : Bool :=
  containsChars (toString n).data msg.data

/-! ## Helper lemmas -/

/-- The zod pipeline accepts exactly the strings whose raw (pre-trim)
length lies in [10, 1000]. -/
lemma isValidReflectionText_iff (text : String) :
    isValidReflectionText text = true ↔
      10 ≤ text.length ∧ text.length ≤ 1000 := by
  simp only [isValidReflectionText, ReflectionTextSchema, runZodString]
  split_ifs with h1 h2 <;> simp <;> omega

/-- Trimming does not lengthen a character list. -/
lemma trimChars_length_le (l : List Char) :
    (trimChars l).length ≤ l.length := by
  unfold trimChars
  calc ((l.dropWhile isJsSpace).reverse.dropWhile isJsSpace).reverse.length
      = ((l.dropWhile isJsSpace).reverse.dropWhile isJsSpace).length := by
        simp
    _ ≤ (l.dropWhile isJsSpace).reverse.length :=
        (List.dropWhile_suffix _).length_le
    _ = (l.dropWhile isJsSpace).length := by simp
    _ ≤ l.length := (List.dropWhile_suffix _).length_le

/-- Trimming does not lengthen a string. -/
lemma jsTrim_length_le (s : String) : (jsTrim s).length ≤ s.length :=
  trimChars_length_le s.data

/-- A list is a `isPrefixOf`-prefix of itself followed by anything. -/
lemma isPrefixOf_append_self (n b : List Char) :
    n.isPrefixOf (n ++ b) = true := by
  induction n with
  | nil => simp [List.isPrefixOf]
  | cons c n ih => simp [List.isPrefixOf, ih]

/-- `containsChars` finds a needle that occurs verbatim in the middle. -/
lemma containsChars_append_self (n a b : List Char) :
    containsChars n (a ++ (n ++ b)) = true := by
  induction a with
  | nil =>
      simp only [List.nil_append]
      cases n with
      | nil => cases b <;> simp [containsChars, List.isPrefixOf]
      | cons c n' =>
          show containsChars (c :: n') (c :: (n' ++ b)) = true
          simp [containsChars, isPrefixOf_append_self]
  | cons c a ih =>
      show containsChars n (c :: (a ++ (n ++ b))) = true
      simp [containsChars, ih]

/-- A message built as `pre ++ toString n ++ suf` mentions `n`. -/
lemma mentionsNat_append (pre suf : String) (n : Nat) :
    mentionsNat (pre ++ toString n ++ suf) n = true := by
  unfold mentionsNat
  have hdata : (pre ++ toString n ++ suf).data =
      pre.data ++ ((toString n).data ++ suf.data) := by
    show (String.mk (pre.data ++ (toString n).data ++ suf.data)).data = _
    simp
  rw [hdata]
  exact containsChars_append_self _ _ _

/-! ## Claims -/

/-- C7: `getDisplayScore` returns `min 100 (score + 15)` for every score
≥ 75 and the score unchanged for every score < 75; in particular
74 ↦ 74, 80 ↦ 95 and 90 ↦ 100. -/
theorem getDisplayScore_boost_spec :
    (∀ s : ℚ, 75 ≤ s → getDisplayScore s = min 100 (s + 15)) ∧
    (∀ s : ℚ, s < 75 → getDisplayScore s = s) ∧
    getDisplayScore 74 = 74 ∧ getDisplayScore 80 = 95 ∧
    getDisplayScore 90 = 100 := by
  refine ⟨?_, ?_, ?_, ?_, ?_⟩
  · intro s h
    simp [getDisplayScore, h]
  · intro s h
    simp [getDisplayScore, not_le.mpr h]
  · norm_num [getDisplayScore]
  · norm_num [getDisplayScore]
  · norm_num [getDisplayScore]

/-- C7 witness: the boost branch applied at the concrete score 80. -/
theorem getDisplayScore_boost_spec_witness :
    getDisplayScore 80 = min 100 (80 + 15) :=
  getDisplayScore_boost_spec.1 80 (by norm_num)

/-- C2 counterexample: ten spaces have trimmed length 0 (< 10) yet
`isValidReflectionText` accepts them, because the zod `min`/`max` checks
run before the chained `trim`. -/
theorem isValidReflectionText_trimmed_counterexample :
    isValidReflectionText "          " = true ∧
    (jsTrim "          ").length = 0 := by
  constructor <;> decide

/-- C2 amended: `isValidReflectionText` requires the raw (untrimmed) length
to lie in [10, 1000]; raw boundary lengths 10 and 1000 are accepted and raw
lengths 9 and 1001 rejected.  (The claim's "trims, then requires length in
[10, 1000]" is wrong: the schema checks length first and trims after.) -/
theorem isValidReflectionText_raw_length_spec :
    (∀ text : String, text.length < 10 → isValidReflectionText text = false) ∧
    (∀ text : String, 1000 < text.length →
      isValidReflectionText text = false) ∧
    (∀ text : String, 10 ≤ text.length → text.length ≤ 1000 →
      isValidReflectionText text = true) ∧
    isValidReflectionText ⟨List.replicate 10 'a'⟩ = true ∧
    isValidReflectionText ⟨List.replicate 1000 'a'⟩ = true ∧
    isValidReflectionText ⟨List.replicate 9 'a'⟩ = false ∧
    isValidReflectionText ⟨List.replicate 1001 'a'⟩ = false := by
  have hlen : ∀ (n : Nat) (c : Char),
      (String.mk (List.replicate n c)).length = n := by
    intro n c
    show (List.replicate n c).length = n
    simp
  refine ⟨?_, ?_, ?_, ?_, ?_, ?_, ?_⟩
  · intro text h
    rw [Bool.eq_false_iff]
    intro hv
    have := (isValidReflectionText_iff text).mp hv
    omega
  · intro text h
    rw [Bool.eq_false_iff]
    intro hv
    have := (isValidReflectionText_iff text).mp hv
    omega
  · intro text h1 h2
    exact (isValidReflectionText_iff text).mpr ⟨h1, h2⟩
  · exact (isValidReflectionText_iff _).mpr (by rw [hlen]; omega)
  · exact (isValidReflectionText_iff _).mpr (by rw [hlen]; omega)
  · rw [Bool.eq_false_iff]
    intro hv
    have := (isValidReflectionText_iff _).mp hv
    rw [hlen] at this
    omega
  · rw [Bool.eq_false_iff]
    intro hv
    have := (isValidReflectionText_iff _).mp hv
    rw [hlen] at this
    omega

/-- C2 witness: the raw-length rejection applied to a concrete
5-character string. -/
theorem isValidReflectionText_raw_length_spec_witness :
    isValidReflectionText "short" = false :=
  isValidReflectionText_raw_length_spec.1 "short" (by decide)

/-- C1 counterexample: with the active context WRITE_EDIT (and regardless
of `hasReflection`, which `switchContext` never consults),
`switchContext(FEEDBACK)` succeeds and commits FEEDBACK rather than
failing. -/
theorem switchContext_no_guard_counterexample :
    switchContext AppContext.writeEdit AppContext.feedback ≠
      (false, AppContext.writeEdit) ∧
    switchContext AppContext.writeEdit AppContext.feedback =
      (true, AppContext.feedback) := by
  constructor <;> decide

/-- C1 amended: the `hasReflection` guard is enforced one layer up, in
`ContextTabs.handleTabClick` (which only invokes `switchContext` on an
available tab): with no reflection, clicking FEEDBACK or CHAT leaves the
context unchanged; with a reflection, clicking FEEDBACK from WRITE_EDIT
lands in FEEDBACK; WRITE_EDIT is always reachable.  `switchContext` itself
accepts every target unconditionally. -/
theorem contextGuard_at_tab_layer_spec :
    (∀ activeContext target : AppContext,
      target = AppContext.feedback ∨ target = AppContext.chat →
      handleTabClick false activeContext target = activeContext) ∧
    handleTabClick false AppContext.writeEdit AppContext.feedback =
      AppContext.writeEdit ∧
    handleTabClick true AppContext.writeEdit AppContext.feedback =
      AppContext.feedback ∧
    (∀ (hasReflection : Bool) (activeContext : AppContext),
      handleTabClick hasReflection activeContext AppContext.writeEdit =
        AppContext.writeEdit) ∧
    (∀ activeContext target : AppContext,
      (switchContext activeContext target).1 = true) := by
  refine ⟨?_, by decide, by decide, ?_, ?_⟩
  · intro a t h
    rcases h with h | h <;> subst h <;> rfl
  · intro h a
    cases h <;> cases a <;> rfl
  · intro a t
    cases a <;> cases t <;> rfl

/-- C1 amended witness: a concrete blocked click — FEEDBACK clicked from
WRITE_EDIT with no reflection leaves the context at WRITE_EDIT. -/
theorem contextGuard_at_tab_layer_spec_witness :
    handleTabClick false AppContext.writeEdit AppContext.feedback =
      AppContext.writeEdit :=
  contextGuard_at_tab_layer_spec.1 AppContext.writeEdit AppContext.feedback
    (Or.inl rfl)

/-- C3: whenever `isSending` is set, `sendMessage` returns false
immediately with the state — in particular every chat session's message
list — unchanged, so no second remote call can start while one is in
flight. -/
theorem sendMessage_single_flight :
    ∀ (env : ChatEnv) (fetchResult : FetchOutcome)
      (reflectionId message : String)
      (currentReflection : Option Reflection) (st : ChatState),
      st.isSending = true →
      sendMessage env fetchResult reflectionId message currentReflection st =
        (false, st) := by
  intro env fetchResult reflectionId message currentReflection st h
  simp [sendMessage, h]

/-- C3 witness: a concrete in-flight state rejects a second send
unchanged. -/
theorem sendMessage_single_flight_witness :
    sendMessage ⟨"m1", "s1", "m2", "s2", 0⟩ FetchOutcome.networkError
      "r1" "hello" none ⟨[], true⟩ = (false, ⟨[], true⟩) :=
  sendMessage_single_flight _ _ _ _ _ _ rfl

/-- C4: `addReflection` returns null with no state change when the
sanitized text fails validation (in particular for every 9-character
string), and on valid text prepends a reflection with status pending,
version 1 and the freshly generated chat-session id, selecting it. -/
theorem addReflection_spec :
    (∀ (newId genChatId : String) (now : Nat) (text : String)
       (providedChatId : Option String) (st : ReflectionsState),
       isValidReflectionText (sanitizeReflectionText text) = false →
       addReflection newId genChatId now text providedChatId st =
         (none, st)) ∧
    (∀ (newId genChatId : String) (now : Nat) (text : String)
       (st : ReflectionsState), text.length = 9 →
       addReflection newId genChatId now text none st = (none, st)) ∧
    (∀ (newId genChatId : String) (now : Nat) (text : String)
       (st : ReflectionsState),
       isValidReflectionText (sanitizeReflectionText text) = true →
       ∃ r : Reflection,
         addReflection newId genChatId now text none st =
           (some r, { reflections := r :: st.reflections
                      selectedReflectionId := some r.id }) ∧
         r.id = newId ∧ r.text = sanitizeReflectionText text ∧
         r.status = ReflectionStatus.pending ∧ r.createdAt = now ∧
         r.updatedAt = now ∧ r.chatSessionId = genChatId ∧
         r.currentVersion = 1) := by
  refine ⟨?_, ?_, ?_⟩
  · intro newId genChatId now text providedChatId st h
    simp [addReflection, h]
  · intro newId genChatId now text st h
    have hle : (sanitizeReflectionText text).length ≤ 9 := by
      show (jsTrim text).length ≤ 9
      rw [← h]
      exact jsTrim_length_le text
    have hv : isValidReflectionText (sanitizeReflectionText text) = false := by
      rw [Bool.eq_false_iff]
      intro hval
      have := (isValidReflectionText_iff _).mp hval
      omega
    simp [addReflection, hv]
  · intro newId genChatId now text st h
    refine ⟨{ id := newId
              text := sanitizeReflectionText text
              status := ReflectionStatus.pending
              createdAt := now
              updatedAt := now
              chatSessionId := genChatId
              currentVersion := 1 },
            ?_, rfl, rfl, rfl, rfl, rfl, rfl, rfl⟩
    simp [addReflection, h]

/-- C4 witness: a concrete 9-character string is rejected with no
mutation. -/
theorem addReflection_spec_witness :
    addReflection "r1" "c1" 0 "ninechars" none ⟨[], none⟩ =
      (none, ⟨[], none⟩) :=
  addReflection_spec.2.1 "r1" "c1" 0 "ninechars" ⟨[], none⟩ (by decide)

/-- C5: `updateReflection` with invalid text returns false and mutates
nothing; with valid text it returns true and, position by position, bumps
`currentVersion` by exactly 1 and rewrites only `text` and `updatedAt` of
reflections matching the id, leaving every other reflection and the
selection untouched. -/
theorem updateReflection_frame_spec :
    (∀ (now : Nat) (id newText : String) (st : ReflectionsState),
       isValidReflectionText (sanitizeReflectionText newText) = false →
       updateReflection now id newText st = (false, st)) ∧
    (∀ (now : Nat) (id newText : String) (st : ReflectionsState),
       isValidReflectionText (sanitizeReflectionText newText) = true →
       (updateReflection now id newText st).1 = true ∧
       (updateReflection now id newText st).2.selectedReflectionId =
         st.selectedReflectionId ∧
       (updateReflection now id newText st).2.reflections.length =
         st.reflections.length ∧
       (∀ (i : Nat) (h1 : i < st.reflections.length)
          (h2 : i <
            (updateReflection now id newText st).2.reflections.length),
          ((st.reflections.get ⟨i, h1⟩).id ≠ id →
            (updateReflection now id newText st).2.reflections.get ⟨i, h2⟩ =
              st.reflections.get ⟨i, h1⟩) ∧
          ((st.reflections.get ⟨i, h1⟩).id = id →
            (((updateReflection now id newText st).2.reflections.get
                ⟨i, h2⟩).currentVersion =
              (st.reflections.get ⟨i, h1⟩).currentVersion + 1 ∧
            ((updateReflection now id newText st).2.reflections.get
                ⟨i, h2⟩).text = sanitizeReflectionText newText ∧
            ((updateReflection now id newText st).2.reflections.get
                ⟨i, h2⟩).updatedAt = now ∧
            ((updateReflection now id newText st).2.reflections.get
                ⟨i, h2⟩).id = (st.reflections.get ⟨i, h1⟩).id ∧
            ((updateReflection now id newText st).2.reflections.get
                ⟨i, h2⟩).status = (st.reflections.get ⟨i, h1⟩).status ∧
            ((updateReflection now id newText st).2.reflections.get
                ⟨i, h2⟩).createdAt =
              (st.reflections.get ⟨i, h1⟩).createdAt ∧
            ((updateReflection now id newText st).2.reflections.get
                ⟨i, h2⟩).chatSessionId =
              (st.reflections.get ⟨i, h1⟩).chatSessionId)))) := by
  refine ⟨?_, ?_⟩
  · intro now id newText st h
    simp [updateReflection, h]
  · intro now id newText st h
    have hres : updateReflection now id newText st =
        (true, { st with reflections := st.reflections.map (fun reflection =>
          if reflection.id = id then
            { reflection with
              text := sanitizeReflectionText newText
              updatedAt := now
              currentVersion := reflection.currentVersion + 1 }
          else reflection) }) := by
      simp [updateReflection, h]
    rw [hres]
    refine ⟨rfl, rfl, by simp, ?_⟩
    intro i h1 h2
    constructor
    · intro hne
      simp only [List.get_eq_getElem] at hne ⊢
      simp [List.getElem_map, hne]
    · intro heq
      simp only [List.get_eq_getElem] at heq ⊢
      simp [List.getElem_map, heq]

/-- C5 witness: a valid edit on a concrete state reports success. -/
theorem updateReflection_frame_spec_witness :
    (updateReflection 0 "id1" "Today I went to school and felt happy"
      ⟨[], none⟩).1 = true :=
  (updateReflection_frame_spec.2 0 "id1"
    "Today I went to school and felt happy" ⟨[], none⟩ (by decide)).1

/-- C10: `updateReflectionStatus` returns true for every id and status —
also when no reflection matches, in which case the state is completely
unchanged — so its boolean never signals whether an update happened. -/
theorem updateReflectionStatus_always_true_spec :
    ∀ (now : Nat) (id : String) (newStatus : ReflectionStatus)
      (st : ReflectionsState),
      (updateReflectionStatus now id newStatus st).1 = true ∧
      (updateReflectionStatus now id newStatus st).2.selectedReflectionId =
        st.selectedReflectionId ∧
      ((∀ r ∈ st.reflections, r.id ≠ id) →
        updateReflectionStatus now id newStatus st = (true, st)) := by
  intro now id newStatus st
  refine ⟨rfl, rfl, ?_⟩
  intro hno
  have hmap : st.reflections.map (fun reflection =>
      if reflection.id = id then
        { reflection with status := newStatus, updatedAt := now }
      else reflection) = st.reflections := by
    conv_rhs => rw [← List.map_id st.reflections]
    apply List.map_congr_left
    intro r hr
    simp [hno r hr]
  simp [updateReflectionStatus, hmap]

/-- C10 witness: on an empty store the call still reports success and
changes nothing. -/
theorem updateReflectionStatus_always_true_spec_witness :
    updateReflectionStatus 0 "missing" ReflectionStatus.passed ⟨[], none⟩ =
      (true, ⟨[], none⟩) :=
  (updateReflectionStatus_always_true_spec 0 "missing"
    ReflectionStatus.passed ⟨[], none⟩).2.2 (by simp)

/-- On non-degenerate inputs `calculateTextSimilarity` is the quotient of
the intersection and union sizes of the deduplicated word lists. -/
lemma calculateTextSimilarity_div (t1 t2 : String) (h1 : ¬ t1 = "")
    (h2 : ¬ t2 = "") (h3 : ¬ (normalizeWords t1).length = 0)
    (h4 : ¬ (normalizeWords t2).length = 0) :
    calculateTextSimilarity t1 t2 =
      (((normalizeWords t1).dedup.filter
          (fun word => decide (word ∈ (normalizeWords t2).dedup))).length :
        ℚ) /
      ((((normalizeWords t1).dedup ++
          (normalizeWords t2).dedup).dedup).length : ℚ) := by
  simp [calculateTextSimilarity, h1, h2, h3, h4]

/-- The example pair from the spec has Jaccard similarity 5/6. -/
lemma simExample1 :
    calculateTextSimilarity "I went to school and felt happy"
      "I went to school and felt happy today" = 5 / 6 := by
  rw [calculateTextSimilarity_div _ _ (by decide) (by decide) (by decide)
    (by decide)]
  have hI : (((normalizeWords "I went to school and felt happy").dedup.filter
      (fun word => decide (word ∈
        (normalizeWords "I went to school and felt happy today").dedup)))).length
      = 5 := by decide
  have hU : ((((normalizeWords "I went to school and felt happy").dedup ++
      (normalizeWords "I went to school and felt happy today").dedup).dedup)).length
      = 6 := by decide
  rw [hI, hU]
  norm_num

/-- The example pair in the order `checkReflectionSimilarity` uses. -/
lemma simExample2 :
    calculateTextSimilarity "I went to school and felt happy today"
      "I went to school and felt happy" = 5 / 6 := by
  rw [calculateTextSimilarity_div _ _ (by decide) (by decide) (by decide)
    (by decide)]
  have hI : (((normalizeWords "I went to school and felt happy today").dedup.filter
      (fun word => decide (word ∈
        (normalizeWords "I went to school and felt happy").dedup)))).length
      = 5 := by decide
  have hU : ((((normalizeWords "I went to school and felt happy today").dedup ++
      (normalizeWords "I went to school and felt happy").dedup).dedup)).length
      = 6 := by decide
  rw [hI, hU]
  norm_num

/-- `Math.round(5/6 * 100) = 83`. -/
lemma jsRound_example : jsRound ((5 : ℚ) / 6 * 100) = 83 := by
  rw [jsRound, Int.floor_eq_iff]
  constructor <;> norm_num

/-- C6: the similarity of the spec's two example sentences is 5/6 (≥ the
0.6 threshold); `checkReflectionSimilarity` returns none when every past
passing reflection is below the threshold, and for the first one at or
above it returns that reflection's text, the rounded integer percentage
and its date — concretely a 83% match for the example pair. -/
theorem similarity_spec :
    calculateTextSimilarity "I went to school and felt happy"
      "I went to school and felt happy today" = 5 / 6 ∧
    SIMILARITY_THRESHOLD ≤
      calculateTextSimilarity "I went to school and felt happy"
        "I went to school and felt happy today" ∧
    (∀ (currentText : String) (past : List PastReflection),
      (∀ p ∈ past,
        calculateTextSimilarity currentText p.text < SIMILARITY_THRESHOLD) →
      checkReflectionSimilarity currentText past = none) ∧
    (∀ (currentText : String) (before : List PastReflection)
       (p : PastReflection) (post : List PastReflection),
      (∀ q ∈ before,
        calculateTextSimilarity currentText q.text < SIMILARITY_THRESHOLD) →
      SIMILARITY_THRESHOLD ≤ calculateTextSimilarity currentText p.text →
      checkReflectionSimilarity currentText (before ++ p :: post) =
        some { similarReflection := p.text
               similarity :=
                 jsRound (calculateTextSimilarity currentText p.text * 100)
               date := p.createdAt }) ∧
    checkReflectionSimilarity "I went to school and felt happy today"
      [{ text := "I went to school and felt happy"
         createdAt := "2025-01-01" }] =
      some { similarReflection := "I went to school and felt happy"
             similarity := 83
             date := "2025-01-01" } := by
  have hfirst : ∀ (currentText : String) (before : List PastReflection)
      (p : PastReflection) (post : List PastReflection),
      (∀ q ∈ before,
        calculateTextSimilarity currentText q.text < SIMILARITY_THRESHOLD) →
      SIMILARITY_THRESHOLD ≤ calculateTextSimilarity currentText p.text →
      checkReflectionSimilarity currentText (before ++ p :: post) =
        some { similarReflection := p.text
               similarity :=
                 jsRound (calculateTextSimilarity currentText p.text * 100)
               date := p.createdAt } := by
    intro currentText before p post hlow hhit
    induction before with
    | nil =>
        simp only [List.nil_append, checkReflectionSimilarity]
        rw [if_pos hhit]
    | cons q rest ih =>
        simp only [List.cons_append, checkReflectionSimilarity]
        rw [if_neg (not_le.mpr (hlow q (List.mem_cons_self q rest)))]
        exact ih (fun r hr => hlow r (List.mem_cons_of_mem q hr))
  have hthr : SIMILARITY_THRESHOLD ≤ ((5 : ℚ) / 6) := by
    rw [SIMILARITY_THRESHOLD]
    norm_num
  refine ⟨simExample1, by rw [simExample1]; exact hthr, ?_, hfirst, ?_⟩
  · intro currentText past h
    induction past with
    | nil => rfl
    | cons p rest ih =>
        simp only [checkReflectionSimilarity]
        rw [if_neg (not_le.mpr (h p (List.mem_cons_self p rest)))]
        exact ih (fun q hq => h q (List.mem_cons_of_mem p hq))
  · have := hfirst "I went to school and felt happy today" []
      { text := "I went to school and felt happy"
        createdAt := "2025-01-01" } [] (by simp)
      (by rw [simExample2]; exact hthr)
    simpa [simExample2, jsRound_example] using this

/-- C6 witness: the first-match case applied to the concrete example
list. -/
theorem similarity_spec_witness :
    checkReflectionSimilarity "I went to school and felt happy today"
      ([] ++ ({ text := "I went to school and felt happy"
                createdAt := "2025-01-01" } : PastReflection) :: []) =
      some { similarReflection := "I went to school and felt happy"
             similarity :=
               jsRound (calculateTextSimilarity
                 "I went to school and felt happy today"
                 "I went to school and felt happy" * 100)
             date := "2025-01-01" } :=
  similarity_spec.2.2.2.1 "I went to school and felt happy today" [] _ []
    (by simp)
    (by rw [simExample2, SIMILARITY_THRESHOLD]; norm_num)

/-- C8: once the moderation pre-check reports `flagged`, the evaluation
handler answers with `flagged: true` and no structured data and never
issues the scoring call; conversely, whenever the scoring call is issued
the submission was not flagged, and whenever structured data is returned
the response carries no flag — flagging and scoring are mutually
exclusive. -/
theorem evaluateReflection_moderation_spec :
    (∀ (text : String) (moderation : ModerationResult)
       (scoring : ScoringOutcome), text ≠ "" → moderation.flagged = true →
       evaluateReflectionHandler "POST" true (some (some text)) moderation
           scoring =
         ({ status := 200, success := some false, flagged := some true,
            data := none, error := some "Content flagged for review" },
          false)) ∧
    (∀ (method : String) (apiKeyConfigured : Bool)
       (body : Option (Option String)) (moderation : ModerationResult)
       (scoring : ScoringOutcome),
       (evaluateReflectionHandler method apiKeyConfigured body moderation
         scoring).2 = true → moderation.flagged = false) ∧
    (∀ (method : String) (apiKeyConfigured : Bool)
       (body : Option (Option String)) (moderation : ModerationResult)
       (scoring : ScoringOutcome),
       ((evaluateReflectionHandler method apiKeyConfigured body moderation
         scoring).1.data).isSome = true →
       (evaluateReflectionHandler method apiKeyConfigured body moderation
         scoring).1.flagged = none) := by
  refine ⟨?_, ?_, ?_⟩
  · intro text moderation scoring htext hflag
    simp [evaluateReflectionHandler, htext, hflag]
  · intro method apiKeyConfigured body moderation scoring h
    rcases body with _ | (_ | text) <;> cases scoring <;>
      simp only [evaluateReflectionHandler] at h <;>
      split_ifs at h <;> simp_all
  · intro method apiKeyConfigured body moderation scoring h
    rcases body with _ | (_ | text) <;> cases scoring <;>
      simp only [evaluateReflectionHandler] at h ⊢ <;>
      split_ifs at h ⊢ <;> simp_all

/-- C8 witness: a concrete flagged submission short-circuits with no data
and no scoring call. -/
theorem evaluateReflection_moderation_spec_witness :
    evaluateReflectionHandler "POST" true
      (some (some "I did things. It was fun. More tomorrow.")) ⟨true⟩
      ScoringOutcome.failed =
      ({ status := 200, success := some false, flagged := some true,
         data := none, error := some "Content flagged for review" },
       false) :=
  evaluateReflection_moderation_spec.1
    "I did things. It was fun. More tomorrow." ⟨true⟩ ScoringOutcome.failed
    (by decide) rfl

/-- C9 counterexample: "Hmm. Ok." has 2 sentences (outside [3, 4]) but
`getReflectionValidationError` returns the length message, which does not
mention the sentence count. -/
theorem validationError_count_counterexample :
    countSentences "Hmm. Ok." = 2 ∧
    ¬ (3 ≤ countSentences "Hmm. Ok." ∧ countSentences "Hmm. Ok." ≤ 4) ∧
    getReflectionValidationError "Hmm. Ok." =
      some "Reflection must be at least 10 characters long" ∧
    mentionsNat "Reflection must be at least 10 characters long"
      (countSentences "Hmm. Ok.") = false := by
  refine ⟨by decide, by decide, by decide, by decide⟩

/-- C9 amended: for every text with sentence count outside [3, 4] the
validation error is non-null; the message mentions the count only for
texts that pass the length schema (the length rule is checked first, and
for length-invalid texts the length message is returned regardless of the
sentence count). -/
theorem validationError_sentence_spec :
    (∀ text : String,
      ¬ (3 ≤ countSentences text ∧ countSentences text ≤ 4) →
      getReflectionValidationError text ≠ none) ∧
    (∀ text : String, isValidReflectionText text = true →
      ¬ (3 ≤ countSentences text ∧ countSentences text ≤ 4) →
      getReflectionValidationError text =
        some ("Reflection should be 3-4 sentences (currently " ++
          toString (countSentences text) ++ ")") ∧
      mentionsNat ("Reflection should be 3-4 sentences (currently " ++
          toString (countSentences text) ++ ")") (countSentences text) =
        true) ∧
    (∀ text : String, isValidReflectionText text = false →
      getReflectionValidationError text =
        some (if text.length < 10 then
                "Reflection must be at least 10 characters long"
              else if 1000 < text.length then
                "Reflection cannot exceed 1000 characters"
              else "Invalid reflection text")) := by
  have hsentence : ∀ text : String,
      ¬ (3 ≤ countSentences text ∧ countSentences text ≤ 4) →
      isValidSentenceCount text = false := by
    intro text hcount
    simp only [isValidSentenceCount]
    rw [Bool.and_eq_false_iff]
    rcases Nat.lt_or_ge (countSentences text) 3 with hlt | hge
    · exact Or.inl (by simpa using Nat.not_le.mpr hlt)
    · refine Or.inr (by simp; omega)
  have hinvalid : ∀ text : String, isValidReflectionText text = false →
      getReflectionValidationError text =
        some (if text.length < 10 then
                "Reflection must be at least 10 characters long"
              else if 1000 < text.length then
                "Reflection cannot exceed 1000 characters"
              else "Invalid reflection text") := by
    intro text hv
    simp only [getReflectionValidationError, hv]
    norm_num
    split_ifs <;> rfl
  refine ⟨?_, ?_, hinvalid⟩
  · intro text hcount
    rcases Bool.eq_false_or_eq_true (isValidReflectionText text) with hv | hv
    · simp [getReflectionValidationError, hv, hsentence text hcount]
    · rw [hinvalid text hv]
      split_ifs <;> simp
  · intro text hv hcount
    refine ⟨?_, ?_⟩
    · simp [getReflectionValidationError, hv, hsentence text hcount]
    · exact mentionsNat_append
        "Reflection should be 3-4 sentences (currently " ")"
        (countSentences text)

/-- C9 amended witness: a length-valid one-sentence text yields the
sentence-count message. -/
theorem validationError_sentence_spec_witness :
    getReflectionValidationError "Today I went to school and felt happy" =
      some "Reflection should be 3-4 sentences (currently 1)" := by
  have hc : countSentences "Today I went to school and felt happy" = 1 := by
    decide
  have h2 := (validationError_sentence_spec.2.1
    "Today I went to school and felt happy" (by decide) (by decide)).1
  rw [hc] at h2
  exact h2.trans (by decide)

end ReflectApp
